import Mathlib

/-!
Shallow embedding of the BDS relay server (`src/server.py`) and proofs about
its event-broadcast behaviour.

Modelling conventions:
* A Python JSON value appearing in a wire payload is a `JVal`; the dict handed
  to `json.dumps` is an ordered association list `Payload` (Python dicts keep
  insertion order and `json.dumps` serializes the keys in that order), so the
  serialized wire form is represented by the ordered object itself.
* A websocket client connection is an opaque identity `Conn := Nat`; the global
  `connected_clients` set together with each client's received-message stream
  is a `RelayState`.
* Machine integers in the program (bit counts) are nonnegative, so they are
  embedded as `Nat`.
* Python expressions that may raise are embedded in `Except String`, the error
  string naming the Python exception class.
-/

namespace BDS

/-- JSON values occurring in the wire payloads of `server.py`
(strings, integers and booleans are the only value kinds used). -/
inductive JVal
  | jstr (s : String)
  | jint (n : Int)
  | jbool (b : Bool)
  deriving DecidableEq, Repr

/-- The dict handed to `json.dumps`: an insertion-ordered association list. -/
abbrev Payload := List (String × JVal)

/-- Python's `x or default` on an optional string: the default is taken when
`x` is `None` or the empty string (both falsy). Embeds line 179 of
`server.py`: `data.event.user_name or "Anonymous"`. -/
def pyOrStr (v : Option String) (default : String) : String :=
  match v with
  | none => default
  | some s => if s = "" then default else s

/-- The dict built at `server.py` lines 85-88 inside `on_redemption`. -/
def redemption_payload (reward_title user_name : String) : Payload :=
  [("reward", .jstr reward_title), ("user", .jstr user_name)]

/-- The cheer normalization and dict built at `server.py` lines 178-191 inside
`on_cheer`: `bits = data.event.bits`, `user_name = data.event.user_name or
"Anonymous"`, `beans_count = bits * 2`, `show_text = bits >= 100`. -/
def cheer_payload (bits : Nat) (user_name : Option String) : Payload :=
  let uname := pyOrStr user_name "Anonymous"
  let beans_count := bits * 2
  let show_text := decide (bits ≥ 100)
  [("type", .jstr "cheer"), ("user", .jstr uname),
   ("beans", .jint beans_count), ("showText", .jbool show_text)]

/-- Opaque identity of one overlay websocket connection. -/
abbrev Conn := Nat

/-- The mutable state the relay core touches: the `connected_clients` set
(`server.py` line 62, kept as a duplicate-free list), each client's stream of
received payloads, and which connections have been closed by a failed send. -/
structure RelayState where
  registry : List Conn
  inbox : Conn → List Payload
  closed : Conn → Bool

/-- Fan-out of one serialized payload, `server.py` lines 90-92 (and 192-194):
one `client.send(payload)` task per member of `connected_clients`, all awaited
together by `asyncio.wait` (which waits for every task and propagates no
exception). A successful send appends the payload to that client's stream; a
failed send leaves the stream unchanged and — per the websockets library —
closes that connection, which makes the `wait_closed()` at line 69 return so
that the handler's `finally` can run. `sendOk c` says whether the send to `c`
succeeds. -/
def sendAll (payload : Payload) (sendOk : Conn → Bool) (s : RelayState) :
    RelayState :=
  { registry := s.registry
    inbox := fun c =>
      if c ∈ s.registry ∧ sendOk c = true then s.inbox c ++ [payload]
      else s.inbox c
    closed := fun c => s.closed c || (decide (c ∈ s.registry) && !sendOk c) }

/-- The `on_redemption` callback, `server.py` lines 78-92: if
`connected_clients` is nonempty, serialize the payload once and broadcast it;
otherwise do nothing (the payload is never computed). The first component
records the payload that was serialized, `none` when serialization was
skipped. -/
def on_redemption (reward_title user_name : String) (sendOk : Conn → Bool)
    (s : RelayState) : Option Payload × RelayState :=
  if s.registry = [] then (none, s)
  else
    let payload := redemption_payload reward_title user_name
    (some payload, sendAll payload sendOk s)

/-- The `on_cheer` callback, `server.py` lines 176-194, with the same
empty-registry guard as `on_redemption`. -/
def on_cheer (bits : Nat) (user_name : Option String) (sendOk : Conn → Bool)
    (s : RelayState) : Option Payload × RelayState :=
  if s.registry = [] then (none, s)
  else
    let payload := cheer_payload bits user_name
    (some payload, sendAll payload sendOk s)

/-- Python `set.remove` (`server.py` line 71,
`connected_clients.remove(websocket)`): removes the element when present and
raises `KeyError` when absent. -/
def pySetRemove (l : List Conn) (c : Conn) : Except String (List Conn) :=
  if c ∈ l then .ok (l.erase c) else .error "KeyError"

/-- The `finally` block of `ws_handler`, `server.py` lines 70-72: once a
connection's `wait_closed()` returns, remove it from `connected_clients`. -/
def ws_handler_finally (c : Conn) (s : RelayState) : Except String RelayState :=
  match pySetRemove s.registry c with
  | .ok r => .ok { s with registry := r }
  | .error e => .error e

/-- The externally observable actions of `main` (`server.py` lines 94-174), in
program order. The whole saved-token / browser authentication flow (lines
128-145) is compressed into the single step `authenticate`. -/
inductive Step
  | bindWs
  | bindHttp
  | configError
  | connectTwitch
  | authenticate
  | resolveUser
  | userError
  | startEventSub
  | subscribeRedemption
  | subscribeCheer
  | runWait
  | stopEventSub
  | closeWs
  | cleanupHttp
  | closeTwitch
  deriving DecidableEq, Repr

/-- Steps that touch the upstream (Twitch) platform. -/
def Step.isUpstream : Step → Bool
  | .connectTwitch | .authenticate | .resolveUser | .startEventSub
  | .subscribeRedemption | .subscribeCheer | .stopEventSub | .closeTwitch => true
  | _ => false

/-- Trace of `main` (`server.py` lines 94-174). The websocket listener is
bound at line 98 and the HTTP listener at lines 101-106, before anything else.
With `BDS_RELAY_ONLY` set (lines 109-117) the function waits for cancellation
and closes the websocket listener. Otherwise the credential check at lines
121-122 raises `RuntimeError` when any of `APP_ID`, `APP_SECRET`,
`TARGET_CHANNEL` is empty (missing environment variables default to `''`),
which propagates out of `main` — the trace ends there. Otherwise the Twitch
steps of lines 123-174 run; `userFound` says whether the lookup at lines
148-153 finds the target channel (if not, a `RuntimeError` ends the trace). -/
def mainTrace (relayOnly : Bool) (appId appSecret targetChannel : String)
    (userFound : Bool) : List Step :=
  [Step.bindWs, Step.bindHttp] ++
  (if relayOnly then [Step.runWait, Step.closeWs]
   else if appId = "" ∨ appSecret = "" ∨ targetChannel = "" then
     [Step.configError]
   else
     [Step.connectTwitch, Step.authenticate, Step.resolveUser] ++
     (if userFound then
        [Step.startEventSub, Step.subscribeRedemption, Step.subscribeCheer,
         Step.runWait, Step.stopEventSub, Step.closeWs, Step.cleanupHttp,
         Step.closeTwitch]
      else [Step.userError]))

/-- Python values relevant to the token file: `json.load` can return `None`,
a string, a number, a boolean, a list or a dict (object keys in insertion
order). -/
inductive PyVal
  | pyNone
  | pyStr (s : String)
  | pyInt (n : Int)
  | pyBool (b : Bool)
  | pyList (xs : List PyVal)
  | pyDict (fields : List (String × PyVal))

/-- Python `dict.get(key)`: the stored value when the key is present, `None`
otherwise. -/
def pyDictGet (fields : List (String × PyVal)) (k : String) : PyVal :=
  match fields.lookup k with
  | some v => v
  | none => .pyNone

/-- State of `tokens.json` as seen by `load_tokens` (`server.py` lines
48-56). -/
inductive TokenFileState
  | absent
  | unreadable
  | malformed
  | parsed (v : PyVal)

/-- Body of the `try` block of `load_tokens`, lines 51-54: opening or
`json.load` may raise (`unreadable` / `malformed`), and `data.get` raises
`AttributeError` when the parsed value is not a dict. -/
def load_tokens_try : TokenFileState → Except String (PyVal × PyVal)
  | .absent => .error "unreachable"
  | .unreadable => .error "OSError"
  | .malformed => .error "JSONDecodeError"
  | .parsed v =>
    match v with
    | .pyDict fields =>
      .ok (pyDictGet fields "token", pyDictGet fields "refresh_token")
    | _ => .error "AttributeError"

/-- The `load_tokens` function, `server.py` lines 48-56: an absent file
returns `(None, None)` before the `try`; any exception inside the `try` is
caught and also yields `(None, None)`. The return type is a plain pair — the
function never raises to its caller. -/
def load_tokens : TokenFileState → PyVal × PyVal
  | .absent => (.pyNone, .pyNone)
  | fs =>
    match load_tokens_try fs with
    | .ok r => r
    | .error _ => (.pyNone, .pyNone)

/-- Python `str.strip()`: drop leading and trailing whitespace. -/
def pyStrip (s : String) : String :=
  ⟨((s.data.dropWhile Char.isWhitespace).reverse.dropWhile
      Char.isWhitespace).reverse⟩

/-- Python `str.lower()` (ASCII case, which is all the flag values use). -/
def pyLower (s : String) : String :=
  ⟨s.data.map Char.toLower⟩

/-- The truthiness test applied to `BDS_DEBUG` and `BDS_RELAY_ONLY`
(`server.py` lines 14 and 20): `os.getenv(name, '').strip().lower() in
\x7b'1', 'true', 'yes', 'on'\x7d`. The argument is the raw environment value,
`none` when the variable is unset (then `os.getenv` returns the default
`''`). -/
def truthyFlag (v : Option String) : Bool :=
  let s := pyLower (pyStrip (v.getD ""))
  s = "1" || s = "true" || s = "yes" || s = "on"

/-- The `BDS_DEBUG` flag (`server.py` line 14) as a function of the
environment. -/
def BDS_DEBUG (env : String → Option String) : Bool :=
  truthyFlag (env "BDS_DEBUG")

/-- The `BDS_RELAY_ONLY` flag (`server.py` line 20) as a function of the
environment. -/
def BDS_RELAY_ONLY (env : String → Option String) : Bool :=
  truthyFlag (env "BDS_RELAY_ONLY")

/-- Modelled from the claim wording (for comparison with `truthyFlag`): the
flag is enabled iff the value, after trimming whitespace and lowercasing, is
one of exactly `1`, `true`, `yes`, `on`; the unset case yields `false`. -/
def claimedFlagSemantics : Option String → Bool
  | none => false
  | some raw =>
    let s := pyLower (pyStrip raw)
    s = "1" || s = "true" || s = "yes" || s = "on"

/-- Helper: `dict.get` is association-list lookup with `None` as default. -/
theorem pyDictGet_eq_getD (fields : List (String × PyVal)) (k : String) :
    pyDictGet fields k = (fields.lookup k).getD .pyNone := by
  cases h : fields.lookup k <;> simp [pyDictGet, h]

/-- Helper: the code's flag parsing agrees with the claimed semantics on
every environment value. -/
theorem truthyFlag_eq_claimed (v : Option String) :
    truthyFlag v = claimedFlagSemantics v := by
  cases v <;> rfl

/-- C1 counterexample: at bit count `5` with the user name present but empty
(`some ""`), the code emits `user = "Anonymous"`, not the claimed `user = ""`
— Python's `or` treats the empty string as absent. -/
theorem cheer_payload_empty_user_cex :
    cheer_payload 5 (some "") =
      [("type", JVal.jstr "cheer"), ("user", JVal.jstr "Anonymous"),
       ("beans", JVal.jint 10), ("showText", JVal.jbool false)] ∧
    decide (JVal.jstr "Anonymous" = JVal.jstr "") = false := by
  exact ⟨rfl, rfl⟩

/-- C1 (amended): `on_cheer` builds exactly the payload
`type = "cheer"`, `user`, `beans = 2*b`, `showText = (b ≥ 100)`, where the
user field is the given name when it is present and non-empty, and
`"Anonymous"` when it is absent or empty. -/
theorem cheer_payload_eq (b : Nat) (u : Option String) :
    cheer_payload b u =
      [("type", JVal.jstr "cheer"),
       ("user", JVal.jstr (match u with
          | none => "Anonymous"
          | some s => if s = "" then "Anonymous" else s)),
       ("beans", JVal.jint (2 * b)),
       ("showText", JVal.jbool (decide (b ≥ 100)))] := by
  cases u <;> simp [cheer_payload, pyOrStr, Int.mul_comm]

/-- C2: when the send to one registered connection `c0` fails and the sends
to every other registered connection succeed, every other connection still
receives the payload, and after the failed connection's handler cleanup runs
(`ws_handler`'s `finally`) it is absent from the registry while the others
remain registered with the payload delivered. -/
theorem broadcast_failure_isolation (s : RelayState) (c0 : Conn) (p : Payload)
    (sendOk : Conn → Bool) (hmem : c0 ∈ s.registry) (hnd : s.registry.Nodup)
    (hfail : sendOk c0 = false)
    (hok : ∀ c ∈ s.registry, c ≠ c0 → sendOk c = true) :
    (∀ c ∈ s.registry, c ≠ c0 →
        (sendAll p sendOk s).inbox c = s.inbox c ++ [p]) ∧
    (sendAll p sendOk s).closed c0 = true ∧
    ∃ s2, ws_handler_finally c0 (sendAll p sendOk s) = Except.ok s2 ∧
      c0 ∉ s2.registry ∧
      ∀ c ∈ s.registry, c ≠ c0 →
        c ∈ s2.registry ∧ s2.inbox c = s.inbox c ++ [p] := by
  refine ⟨?_, by simp [sendAll, hmem, hfail], ?_⟩
  · intro c hc hne
    simp [sendAll, hc, hok c hc hne]
  · refine ⟨{ sendAll p sendOk s with registry := s.registry.erase c0 },
      ?_, hnd.not_mem_erase, ?_⟩
    · simp [ws_handler_finally, pySetRemove, hmem, sendAll]
    · intro c hc hne
      exact ⟨(List.mem_erase_of_ne hne).mpr hc, by
        simp [sendAll, hc, hok c hc hne]⟩

/-- C2 witness: a concrete three-connection registry in which the send to
connection `2` fails. -/
theorem broadcast_failure_isolation_witness :
    (∀ c ∈ ([1, 2, 3] : List Conn), c ≠ 2 →
        (sendAll (redemption_payload "Free Hug" "alice")
            (fun c => decide (c ≠ 2))
            ⟨[1, 2, 3], fun _ => [], fun _ => false⟩).inbox c
          = [redemption_payload "Free Hug" "alice"]) ∧
    (sendAll (redemption_payload "Free Hug" "alice") (fun c => decide (c ≠ 2))
        ⟨[1, 2, 3], fun _ => [], fun _ => false⟩).closed 2 = true ∧
    ∃ s2, ws_handler_finally 2
        (sendAll (redemption_payload "Free Hug" "alice")
          (fun c => decide (c ≠ 2))
          ⟨[1, 2, 3], fun _ => [], fun _ => false⟩) = Except.ok s2 ∧
      2 ∉ s2.registry ∧
      ∀ c ∈ ([1, 2, 3] : List Conn), c ≠ 2 →
        c ∈ s2.registry ∧
        s2.inbox c = [redemption_payload "Free Hug" "alice"] :=
  broadcast_failure_isolation ⟨[1, 2, 3], fun _ => [], fun _ => false⟩ 2
    (redemption_payload "Free Hug" "alice") (fun c => decide (c ≠ 2))
    (by decide) (by decide) (by decide) (by decide)

/-- C3 counterexample: with relay-only off and all three credentials missing,
`main` binds the websocket listener (step 1) and the HTTP listener (step 2)
strictly before raising the configuration error (step 3) — startup does not
fail before a listening endpoint is bound. -/
theorem missing_config_cex :
    mainTrace false "" "" "" true =
      [Step.bindWs, Step.bindHttp, Step.configError] ∧
    (mainTrace false "" "" "" true).indexOf Step.bindWs <
      (mainTrace false "" "" "" true).indexOf Step.configError := by
  exact ⟨rfl, by decide⟩

/-- C3 (amended): with relay-only off and any credential missing, `main`
raises the fatal configuration error immediately after binding the two
listeners and before any upstream step (no Twitch connection, authentication
or subscription is attempted); the raise ends `main`, so the process exits
rather than keep running partially. -/
theorem missing_config_trace (a s t : String) (userFound : Bool)
    (h : a = "" ∨ s = "" ∨ t = "") :
    mainTrace false a s t userFound =
      [Step.bindWs, Step.bindHttp, Step.configError] ∧
    (mainTrace false a s t userFound).all (fun st => !st.isUpstream) = true := by
  have htr : mainTrace false a s t userFound =
      [Step.bindWs, Step.bindHttp, Step.configError] := by
    simp [mainTrace, h]
  exact ⟨htr, by rw [htr]; rfl⟩

/-- C3 witness: app id missing, the other credentials set. -/
theorem missing_config_trace_witness :
    mainTrace false "" "secret" "channel" true =
      [Step.bindWs, Step.bindHttp, Step.configError] ∧
    (mainTrace false "" "secret" "channel" true).all
      (fun st => !st.isUpstream) = true :=
  missing_config_trace "" "secret" "channel" true (Or.inl rfl)

/-- C4 counterexample: removing a connection that is not in the registry is
not a no-op — `connected_clients.remove` raises `KeyError` on the empty
registry. -/
theorem unregister_absent_cex :
    pySetRemove [] 0 = Except.error "KeyError" := rfl

/-- C4 (amended): on a duplicate-free registry, unregistering a present
connection removes exactly it (it is gone, every other connection stays),
while unregistering an absent connection raises `KeyError` instead of being a
no-op. -/
theorem unregister_spec (l : List Conn) (c : Conn) (hnd : l.Nodup) :
    (c ∈ l → ∃ l2, pySetRemove l c = Except.ok l2 ∧ c ∉ l2 ∧
      ∀ d ∈ l, d ≠ c → d ∈ l2) ∧
    (c ∉ l → pySetRemove l c = Except.error "KeyError") := by
  constructor
  · intro hc
    refine ⟨l.erase c, ?_, hnd.not_mem_erase, ?_⟩
    · simp [pySetRemove, hc]
    · intro d hd hne
      exact (List.mem_erase_of_ne hne).mpr hd
  · intro hc
    simp [pySetRemove, hc]

/-- C4 witness: registry `[3, 4]`, removing `4` succeeds and removing an
absent element errors. -/
theorem unregister_spec_witness :
    (4 ∈ ([3, 4] : List Conn) → ∃ l2, pySetRemove [3, 4] 4 = Except.ok l2 ∧
      4 ∉ l2 ∧ ∀ d ∈ ([3, 4] : List Conn), d ≠ 4 → d ∈ l2) ∧
    (4 ∉ ([3, 4] : List Conn) →
      pySetRemove [3, 4] 4 = Except.error "KeyError") :=
  unregister_spec [3, 4] 4 (by decide)

/-- C5: with an empty registry both callbacks return immediately with the
state unchanged and without computing any payload (the serialization branch
is never entered, witnessed by the `none` first component). -/
theorem broadcast_empty_noop (r u : String) (b : Nat) (un : Option String)
    (sendOk : Conn → Bool) (s : RelayState) (h : s.registry = []) :
    on_redemption r u sendOk s = (none, s) ∧
    on_cheer b un sendOk s = (none, s) := by
  constructor <;> simp [on_redemption, on_cheer, h]

/-- C5 witness: concrete events against the empty registry. -/
theorem broadcast_empty_noop_witness :
    on_redemption "Free Hug" "alice" (fun _ => true)
        ⟨[], fun _ => [], fun _ => false⟩ =
      (none, (⟨[], fun _ => [], fun _ => false⟩ : RelayState)) ∧
    on_cheer 50 none (fun _ => true) ⟨[], fun _ => [], fun _ => false⟩ =
      (none, (⟨[], fun _ => [], fun _ => false⟩ : RelayState)) :=
  broadcast_empty_noop "Free Hug" "alice" 50 none (fun _ => true)
    ⟨[], fun _ => [], fun _ => false⟩ rfl

/-- C6: the redemption payload is exactly the two-field object
`reward`, `user` and carries no `type` discriminator key. -/
theorem redemption_payload_shape (r u : String) :
    redemption_payload r u = [("reward", JVal.jstr r), ("user", JVal.jstr u)] ∧
    (redemption_payload r u).lookup "type" = none := by
  exact ⟨rfl, rfl⟩

/-- C7: for a connection registered through two consecutive broadcasts whose
sends to it both succeed, the first broadcast's payload is delivered before
the second one's — per-recipient order follows broadcast order. -/
theorem per_connection_order (s : RelayState) (p1 p2 : Payload)
    (ok1 ok2 : Conn → Bool) (c : Conn) (hc : c ∈ s.registry)
    (h1 : ok1 c = true) (h2 : ok2 c = true) :
    (sendAll p2 ok2 (sendAll p1 ok1 s)).inbox c = s.inbox c ++ [p1, p2] := by
  have hc1 : c ∈ (sendAll p1 ok1 s).registry := hc
  simp [sendAll, hc, hc1, h1, h2]

/-- C7 witness: one connection receiving a 50-bit cheer then a 100-bit
cheer, in that order. -/
theorem per_connection_order_witness :
    (sendAll (cheer_payload 100 (some "alice")) (fun _ => true)
        (sendAll (cheer_payload 50 none) (fun _ => true)
          ⟨[0], fun _ => [], fun _ => false⟩)).inbox 0 =
      [cheer_payload 50 none, cheer_payload 100 (some "alice")] :=
  per_connection_order ⟨[0], fun _ => [], fun _ => false⟩
    (cheer_payload 50 none) (cheer_payload 100 (some "alice"))
    (fun _ => true) (fun _ => true) 0 (by decide) rfl rfl

/-- C8: with relay-only configured, `main` binds both listeners, waits for
cancellation and closes the websocket listener — whatever the credential
values; no configuration error occurs and no upstream (Twitch) step appears
anywhere in startup or shutdown. -/
theorem relay_only_trace (a s t : String) (userFound : Bool) :
    mainTrace true a s t userFound =
      [Step.bindWs, Step.bindHttp, Step.runWait, Step.closeWs] ∧
    (mainTrace true a s t userFound).contains Step.bindWs = true ∧
    (mainTrace true a s t userFound).contains Step.configError = false ∧
    (mainTrace true a s t userFound).all (fun st => !st.isUpstream) = true := by
  exact ⟨rfl, rfl, rfl, rfl⟩

/-- C9: `load_tokens` is a total function into plain pairs — every exception
inside it is caught. An absent, unreadable or malformed file yields
`(None, None)`, a parsed JSON object yields the values at `token` and
`refresh_token` (`None` for a missing key), and any parsed non-object value
also yields `(None, None)` (the `data.get` attribute error is caught too). -/
theorem load_tokens_spec :
    load_tokens .absent = (.pyNone, .pyNone) ∧
    load_tokens .unreadable = (.pyNone, .pyNone) ∧
    load_tokens .malformed = (.pyNone, .pyNone) ∧
    ∀ v : PyVal, load_tokens (.parsed v) =
      (match v with
       | .pyDict fields =>
         ((fields.lookup "token").getD .pyNone,
          (fields.lookup "refresh_token").getD .pyNone)
       | _ => (.pyNone, .pyNone)) := by
  refine ⟨rfl, rfl, rfl, ?_⟩
  intro v
  cases v <;>
    simp [load_tokens, load_tokens_try, pyDictGet_eq_getD]

/-- C10: both boolean flags follow exactly the claimed semantics — enabled
iff the environment value, trimmed and lowercased, is one of `1`, `true`,
`yes`, `on`, with the unset and empty cases disabled. -/
theorem env_flag_semantics (env : String → Option String) :
    BDS_DEBUG env = claimedFlagSemantics (env "BDS_DEBUG") ∧
    BDS_RELAY_ONLY env = claimedFlagSemantics (env "BDS_RELAY_ONLY") ∧
    BDS_DEBUG (fun _ => none) = false ∧
    BDS_DEBUG (fun _ => some "") = false ∧
    BDS_DEBUG (fun _ => some " TRUE ") = true ∧
    BDS_DEBUG (fun _ => some "0") = false := by
  refine ⟨?_, ?_, rfl, rfl, rfl, rfl⟩
  · exact truthyFlag_eq_claimed (env "BDS_DEBUG")
  · exact truthyFlag_eq_claimed (env "BDS_RELAY_ONLY")

end BDS
